import Mathlib

/-!
Shallow embedding of `prepostchecker.py` (PrePostChecker): a batch
device-session orchestrator that, for each device in a list, opens a
remote session, captures command output into a per-device log file and
backs up the running configuration, isolating per-device
authentication/timeout failures.

The embedding models:
  * wall-clock timestamps as a stream of `DateTime` values consumed by
    each `datetime.now()` call;
  * the filesystem as an association list from paths to file contents,
    where opening a file in mode "w" truncates it immediately;
  * the status channel (`print` calls) as a list of emitted lines;
  * the netmiko transport as a `DeviceModel` oracle giving the outcome of
    `ConnectHandler`, `find_prompt` and `send_command`;
  * an event trace recording connection attempts, filename derivations,
    command executions and file writes, to state ordering properties.
-/

set_option autoImplicit false

namespace PrePostChecker

/-- A wall-clock instant, as far as `strftime('%m%d%Y-%H%M')` can see it. -/
structure DateTime where
  month : Nat
  day : Nat
  year : Nat
  hour : Nat
  minute : Nat
deriving DecidableEq

/-- The two netmiko exceptions the orchestrator catches
(`NetMikoAuthenticationException`, `NetMikoTimeoutException`). -/
inductive NetmikoExc
  | authFail
  | timeoutFail
deriving DecidableEq

/-- Observable events of a run, in occurrence order. -/
inductive Event
  | connectAttempt (dev : String)
  | deriveLogFilename (name : String)
  | execCmd (cmd : String)
  | openTruncate (path : String)
  | writeFile (path : String)
  | deriveBackupFilename (name : String)
  | skipped (dev : String) (e : NetmikoExc)
deriving DecidableEq

/-- Program state threaded through the run. -/
structure St where
  clock : List DateTime
  fs : List (String × String)
  output : List String
  events : List Event
deriving DecidableEq

/-- Transport oracle for one device: outcome of `ConnectHandler`
(`none` = success), of `find_prompt`, and of `send_command` per command
string. -/
structure DeviceModel where
  connect : Option NetmikoExc
  findPrompt : Except NetmikoExc String
  sendCommand : String → Except NetmikoExc String

/-- The string `ch * n` of Python. -/
def strRepeat (ch : Char) (n : Nat) : String := String.mk (List.replicate n ch)

/-- The line `"#" * 100` printed as a visual separator. -/
def hashLine : String := strRepeat '#' 100

/-- Python `s.replace("#", "")`: removes every occurrence of `#`. -/
def pyReplaceHash (s : String) : String := String.mk (s.data.filter (fun c => c ≠ '#'))

/-- Zero-padded two-digit field of `strftime` (`%m`, `%d`, `%H`, `%M`). -/
def pad2 (n : Nat) : String := if n < 10 then "0" ++ toString n else toString n

/-- Zero-padded four-digit field of `strftime` (`%Y`). -/
def pad4 (n : Nat) : String :=
  if n < 10 then "000" ++ toString n
  else if n < 100 then "00" ++ toString n
  else if n < 1000 then "0" ++ toString n
  else toString n

/-- `datetime.now().strftime('%m%d%Y-%H%M')`. -/
def strfStamp (t : DateTime) : String :=
  pad2 t.month ++ pad2 t.day ++ pad4 t.year ++ "-" ++ pad2 t.hour ++ pad2 t.minute

/-- The log filename f-string of line 101 of the source. -/
def showFilename (hostname prepost : String) (t : DateTime) : String :=
  hostname ++ "_" ++ prepost ++ "CheckLogs-" ++ strfStamp t ++ ".txt"

/-- The backup filename f-string of line 123 of the source. -/
def backupFilename (hostname : String) (t : DateTime) : String :=
  hostname ++ "_BackupConfig-" ++ strfStamp t ++ ".cfg"

/-- `os.path.join(cwd, dir, name)` for the shapes used here. -/
def pathJoin3 (a b c : String) : String := a ++ "/" ++ b ++ "/" ++ c

/-- The output sub-directory `Logs/{prepost}`. -/
def logsDir (prepost : String) : String := "Logs/" ++ prepost

/-- Full path of the log artifact for a resolved hostname and timestamp. -/
def logPath (cwd prepost hostname : String) (t : DateTime) : String :=
  pathJoin3 cwd (logsDir prepost) (showFilename hostname prepost t)

/-- Full path of the backup artifact for a resolved hostname and timestamp. -/
def bkpPath (cwd prepost hostname : String) (t : DateTime) : String :=
  pathJoin3 cwd (logsDir prepost) (backupFilename hostname t)

/-- One `print(s)` call on the status channel. -/
def printLine (st : St) (s : String) : St := { st with output := st.output ++ [s] }

/-- Record one observable event. -/
def logEvent (st : St) (e : Event) : St := { st with events := st.events ++ [e] }

/-- Store `c` at path `p`, replacing any previous content (mode "w"). -/
def fsWrite (fs : List (String × String)) (p c : String) : List (String × String) :=
  (p, c) :: fs.filter (fun e => e.1 ≠ p)

/-- Content currently stored at path `p`, if any. -/
def fsLookup (fs : List (String × String)) (p : String) : Option String :=
  (fs.find? (fun e => e.1 = p)).map Prod.snd

/-- `open(p, "w")`: the file is created/truncated to empty at open time. -/
def stOpenTruncate (st : St) (p : String) : St :=
  logEvent { st with fs := fsWrite st.fs p "" } (Event.openTruncate p)

/-- A `.write`/`.writelines` call on a file opened in mode "w". -/
def stWriteFile (st : St) (p c : String) : St :=
  logEvent { st with fs := fsWrite st.fs p c } (Event.writeFile p)

/-- `datetime.now()`: pop the next instant off the clock stream. -/
def now : St → DateTime × St
  | ⟨[], fs, o, ev⟩ => (⟨1, 1, 1900, 0, 0⟩, ⟨[], fs, o, ev⟩)
  | ⟨t :: ck, fs, o, ev⟩ => (t, ⟨ck, fs, o, ev⟩)

/-- The fixed-width visual delimiter of lines 111-112:
`("*" * 20) + str(command) + ("*" * (80 - len(command)))`
(Python yields the empty string for a negative repeat count, as `Nat`
subtraction does here). -/
def delimLine (command : String) : String :=
  strRepeat '*' 20 ++ command ++ strRepeat '*' (80 - command.length)

/-- The full chunk appended to the buffer before a command's output:
`"\n" + delimiter + "\n\n"`. -/
def delimChunk (command : String) : String := "\n" ++ delimLine command ++ "\n\n"

/-- The command loop of lines 110-115: for each command, append the
delimiter chunk and the command's raw output to the in-memory buffer
`acc`; `send_command` may raise, which aborts the loop with the state at
the raise point. -/
def commandLoop (model : DeviceModel) : List String → String → St →
    Except (NetmikoExc × St) (String × St)
  | [], acc, st => Except.ok (acc, st)
  | c :: rest, acc, st =>
    let acc2 := acc ++ delimChunk c
    let st2 := logEvent st (Event.execCmd c)
    match model.sendCommand c with
    | Except.error e => Except.error (e, st2)
    | Except.ok out => commandLoop model rest (acc2 ++ out) st2

/-- The body of the per-device `try` block, lines 94-133: connect,
resolve hostname, derive log filename, run the command loop, write the
log, derive the backup filename, capture and write the running config.
An error value carries the state at the raise point. -/
def tryBody (commands : List String) (prepost cwd : String) (model : DeviceModel)
    (st : St) : Except (NetmikoExc × St) St :=
  match model.connect with
  | some e => Except.error (e, st)
  | none =>
    match model.findPrompt with
    | Except.error e => Except.error (e, st)
    | Except.ok prompt =>
      let hostname := pyReplaceHash prompt
      let st := printLine st ("Logged in to " ++ hostname ++ ".")
      let st := printLine st "Getting logs now."
      let t1 := (now st).1
      let st := (now st).2
      let show_filename := showFilename hostname prepost t1
      let st := logEvent st (Event.deriveLogFilename show_filename)
      let show_fullpath := pathJoin3 cwd (logsDir prepost) show_filename
      let st := printLine st ("Outdir: " ++ cwd ++ "/Logs/" ++ prepost ++ "/")
      let st := printLine st ("Logs Filename: " ++ show_filename)
      match commandLoop model commands "" st with
      | Except.error es => Except.error es
      | Except.ok (output, st) =>
        let st := stOpenTruncate st show_fullpath
        let st := stWriteFile st show_fullpath output
        let st := printLine st ""
        let st := printLine st "Backing up config."
        let t2 := (now st).1
        let st := (now st).2
        let backup_filename := backupFilename hostname t2
        let st := logEvent st (Event.deriveBackupFilename backup_filename)
        let backup_fullpath := pathJoin3 cwd (logsDir prepost) backup_filename
        let st := printLine st ("Backup Filename: " ++ backup_filename)
        let st := stOpenTruncate st backup_fullpath
        match model.sendCommand "show running" with
        | Except.error e => Except.error (e, st)
        | Except.ok cfg =>
          let st := stWriteFile st backup_fullpath cfg
          let st := printLine st ("Completed! Disconnecting now from " ++ hostname ++ ".")
          let st := printLine st hashLine
          let st := printLine st ""
          Except.ok st

/-- The skip message printed by the matching `except` clause. -/
def skipMsg : NetmikoExc → String
  | NetmikoExc.authFail => "Authentication failed.\nSkipping.."
  | NetmikoExc.timeoutFail => "Device unreachable.\nSkipping.."

/-- One iteration of the device loop, lines 80-143: banner prints, the
`try` block, and the two `except` handlers that skip the device. -/
def processDevice (dev : String) (commands : List String) (prepost cwd : String)
    (model : DeviceModel) (st : St) : St :=
  let st := printLine st hashLine
  let st := printLine st ("Connecting to " ++ dev ++ "..")
  let st := printLine st hashLine
  let st := logEvent st (Event.connectAttempt dev)
  match tryBody commands prepost cwd model st with
  | Except.ok st2 => st2
  | Except.error (e, st2) =>
    let st3 := printLine st2 (skipMsg e)
    let st3 := printLine st3 hashLine
    let st3 := printLine st3 ""
    logEvent st3 (Event.skipped dev e)

/-- The batch driver `prepostchecks`: the `for device in devices` loop,
one full `processDevice` iteration per element, strictly in order. -/
def prepostchecks (devices : List String) (commands : List String)
    (behavior : String → DeviceModel) (prepost cwd : String) (st : St) : St :=
  match devices with
  | [] => st
  | d :: rest =>
    prepostchecks rest commands behavior prepost cwd
      (processDevice d commands prepost cwd (behavior d) st)

/-- Strip leading and trailing whitespace from a character list. -/
def stripWs (l : List Char) : List Char :=
  ((l.dropWhile Char.isWhitespace).reverse.dropWhile Char.isWhitespace).reverse

/-- Python `int(s)` succeeds: optional surrounding whitespace, optional
sign, then a non-empty digit string. In particular `int("")` raises
`ValueError`. -/
def pyIntOk (s : String) : Bool :=
  let t := stripWs s.data
  let t2 := match t with
    | c :: rest => if c = '+' || c = '-' then rest else t
    | [] => t
  !t2.isEmpty && t2.all Char.isDigit

/-- The SSH-port prompt loop of lines 39-49 of `get_inputs`, driven by
the stream of user entries; `none` means the loop is still prompting
when the entries run out. The `if s = ""` branch mirrors lines 43-44,
which run only when `int(port)` did not raise. -/
def portLoop : List String → Option String
  | [] => none
  | s :: rest =>
    if pyIntOk s then (if s = "" then some "22" else some s)
    else portLoop rest

/-- `os.path.exists` over the modelled set of existing directories. -/
def osPathExists (dirs : List String) (p : String) : Bool := dirs.contains p

/-- The directory-bootstrap `if/elif` of lines 167-170 of `__main__`:
`os.makedirs("./Logs/Pre")` when that path is missing, otherwise
`os.makedirs("./Logs/Post")` when that one is missing. Returns the
updated set of existing directories. -/
def mainBootstrap (dirs : List String) : List String :=
  if !(osPathExists dirs "./Logs/Pre") then dirs ++ ["./Logs/Pre"]
  else if !(osPathExists dirs "./Logs/Post") then dirs ++ ["./Logs/Post"]
  else dirs

/-! ## Observables of a run -/

/-- Device of a connection-attempt event. -/
def connAttemptDev : Event → Option String
  | Event.connectAttempt d => some d
  | _ => none

/-- Devices for which a connection was attempted, in order. -/
def connectAttempts (st : St) : List String := st.events.filterMap connAttemptDev

/-- Path of a file-write event. -/
def writePathOf : Event → Option String
  | Event.writeFile p => some p
  | _ => none

/-- Paths written by `.write`/`.writelines` calls, in order. -/
def writesOf (st : St) : List String := st.events.filterMap writePathOf

/-- Log-filename derivation recorded by an event. -/
def logNameOf : Event → Option String
  | Event.deriveLogFilename n => some n
  | _ => none

/-- Backup-filename derivation recorded by an event. -/
def bkpNameOf : Event → Option String
  | Event.deriveBackupFilename n => some n
  | _ => none

/-- Log filenames derived during the run, in order. -/
def logNames (st : St) : List String := st.events.filterMap logNameOf

/-- Backup filenames derived during the run, in order. -/
def bkpNames (st : St) : List String := st.events.filterMap bkpNameOf

/-- Whether an event is a command execution. -/
def isExecEvent : Event → Bool
  | Event.execCmd _ => true
  | _ => false

/-- Whether an event is a filename derivation (log or backup). -/
def isDeriveEvent : Event → Bool
  | Event.deriveLogFilename _ => true
  | Event.deriveBackupFilename _ => true
  | _ => false

/-- Checks that no filename derivation occurs after any command
execution in the trace, i.e. that all artifact filenames were derived
before command execution began. -/
def noDeriveAfterExec : List Event → Bool
  | [] => true
  | e :: rest =>
    if isExecEvent e then rest.all (fun x => !(isDeriveEvent x)) && noDeriveAfterExec rest
    else noDeriveAfterExec rest

/-- The full in-memory log buffer the command loop builds for `commands`
when every execution succeeds with output `out c`. -/
def logContent (commands : List String) (out : String → String) : String :=
  commands.foldl (fun a c => a ++ delimChunk c ++ out c) ""

/-- Stated from the spec for comparison with the code: strip only
TRAILING prompt-termination characters from the self-reported
identifier, preserving interior characters. -/
def specStripTrailingHash (s : String) : String :=
  String.mk (((s.data.reverse).dropWhile (fun c => c = '#')).reverse)

/-! ## Concrete fixtures used by witnesses and counterexamples -/

/-- Canned output of a successful `send_command`. -/
def okOut (c : String) : String := "OUT[" ++ c ++ "]"

/-- A device that connects, reports prompt `R1#` and answers every
command. -/
def okModel : DeviceModel :=
  { connect := none
    findPrompt := Except.ok "R1#"
    sendCommand := fun c => Except.ok (okOut c) }

/-- A device whose connection attempt raises the authentication
exception. -/
def authFailModel : DeviceModel :=
  { connect := some NetmikoExc.authFail
    findPrompt := Except.ok ""
    sendCommand := fun _ => Except.ok "" }

/-- A device that answers every diagnostic command but times out on the
backup-step `show running`. -/
def bkpFailModel : DeviceModel :=
  { connect := none
    findPrompt := Except.ok "R1#"
    sendCommand := fun c =>
      if c = "show running" then Except.error NetmikoExc.timeoutFail
      else Except.ok (okOut c) }

/-- A device that connects but times out on every `send_command`. -/
def cmdFailModel : DeviceModel :=
  { connect := none
    findPrompt := Except.ok "R1#"
    sendCommand := fun _ => Except.error NetmikoExc.timeoutFail }

/-- A device whose prompt has an interior `#` as well as a trailing one. -/
def edgeModel : DeviceModel :=
  { connect := none
    findPrompt := Except.ok "Edge#1#"
    sendCommand := fun c => Except.ok (okOut c) }

/-- A sample instant: Oct 12 2026, 09:30. -/
def t0 : DateTime := ⟨10, 12, 2026, 9, 30⟩

/-- A second sample instant: Jan 2 2026, 03:04. -/
def tA : DateTime := ⟨1, 2, 2026, 3, 4⟩

/-- Initial state with a given clock stream and empty filesystem,
output and trace. -/
def initSt (clock : List DateTime) : St := ⟨clock, [], [], []⟩

/-! ## Projection lemmas for the state operations -/

@[simp] theorem printLine_clock (st : St) (s : String) : (printLine st s).clock = st.clock := rfl

@[simp] theorem printLine_fs (st : St) (s : String) : (printLine st s).fs = st.fs := rfl

@[simp] theorem printLine_output (st : St) (s : String) :
    (printLine st s).output = st.output ++ [s] := rfl

@[simp] theorem printLine_events (st : St) (s : String) : (printLine st s).events = st.events := rfl

@[simp] theorem logEvent_clock (st : St) (e : Event) : (logEvent st e).clock = st.clock := rfl

@[simp] theorem logEvent_fs (st : St) (e : Event) : (logEvent st e).fs = st.fs := rfl

@[simp] theorem logEvent_output (st : St) (e : Event) : (logEvent st e).output = st.output := rfl

@[simp] theorem logEvent_events (st : St) (e : Event) :
    (logEvent st e).events = st.events ++ [e] := rfl

@[simp] theorem stOpenTruncate_clock (st : St) (p : String) :
    (stOpenTruncate st p).clock = st.clock := rfl

@[simp] theorem stOpenTruncate_fs (st : St) (p : String) :
    (stOpenTruncate st p).fs = fsWrite st.fs p "" := rfl

@[simp] theorem stOpenTruncate_output (st : St) (p : String) :
    (stOpenTruncate st p).output = st.output := rfl

@[simp] theorem stOpenTruncate_events (st : St) (p : String) :
    (stOpenTruncate st p).events = st.events ++ [Event.openTruncate p] := rfl

@[simp] theorem stWriteFile_clock (st : St) (p c : String) :
    (stWriteFile st p c).clock = st.clock := rfl

@[simp] theorem stWriteFile_fs (st : St) (p c : String) :
    (stWriteFile st p c).fs = fsWrite st.fs p c := rfl

@[simp] theorem stWriteFile_output (st : St) (p c : String) :
    (stWriteFile st p c).output = st.output := rfl

@[simp] theorem stWriteFile_events (st : St) (p c : String) :
    (stWriteFile st p c).events = st.events ++ [Event.writeFile p] := rfl

@[simp] theorem now_snd_fs (st : St) : (now st).2.fs = st.fs := by
  obtain ⟨ck, fs, o, ev⟩ := st; cases ck <;> rfl

@[simp] theorem now_snd_output (st : St) : (now st).2.output = st.output := by
  obtain ⟨ck, fs, o, ev⟩ := st; cases ck <;> rfl

@[simp] theorem now_snd_events (st : St) : (now st).2.events = st.events := by
  obtain ⟨ck, fs, o, ev⟩ := st; cases ck <;> rfl

@[simp] theorem now_cons (t : DateTime) (ck : List DateTime) (fs : List (String × String))
    (o : List String) (ev : List Event) :
    now ⟨t :: ck, fs, o, ev⟩ = (t, ⟨ck, fs, o, ev⟩) := rfl

/-- The instant the next `datetime.now()` call returns, given the clock
stream. -/
def tick (ck : List DateTime) : DateTime := ck.headD ⟨1, 1, 1900, 0, 0⟩

@[simp] theorem now_fst (st : St) : (now st).1 = tick st.clock := by
  obtain ⟨ck, fs, o, ev⟩ := st; cases ck <;> rfl

@[simp] theorem now_snd_clock (st : St) : (now st).2.clock = st.clock.tail := by
  obtain ⟨ck, fs, o, ev⟩ := st; cases ck <;> rfl

theorem now_snd (st : St) : (now st).2 = { st with clock := st.clock.tail } := by
  obtain ⟨ck, fs, o, ev⟩ := st; cases ck <;> rfl

/-! ## Filesystem lemmas -/

theorem fsWrite_fsWrite_same (fs : List (String × String)) (p a b : String) :
    fsWrite (fsWrite fs p a) p b = fsWrite fs p b := by
  simp [fsWrite, List.filter_filter]

theorem fsLookup_fsWrite_self (fs : List (String × String)) (p c : String) :
    fsLookup (fsWrite fs p c) p = some c := by
  simp [fsLookup, fsWrite, List.find?]

theorem fsLookup_fsWrite_ne (fs : List (String × String)) (p q c : String) (h : q ≠ p) :
    fsLookup (fsWrite fs p c) q = fsLookup fs q := by
  simp only [fsLookup, fsWrite]
  rw [List.find?_cons_of_neg _ (by simpa using fun hpq => h hpq.symm)]
  congr 1
  induction fs with
  | nil => rfl
  | cons hd tl ih =>
    by_cases hq : hd.1 = q
    · have hp : hd.1 ≠ p := by rw [hq]; exact h
      rw [List.filter_cons_of_pos (by simpa using hp),
        List.find?_cons_of_pos _ (by simpa using hq),
        List.find?_cons_of_pos _ (by simpa using hq)]
    · by_cases hp : hd.1 = p
      · rw [List.filter_cons_of_neg (by simpa using hp),
          List.find?_cons_of_neg _ (by simpa using hq), ih]
      · rw [List.filter_cons_of_pos (by simpa using hp),
          List.find?_cons_of_neg _ (by simpa using hq),
          List.find?_cons_of_neg _ (by simpa using hq), ih]

/-! ## Last characters distinguish log and backup paths -/

/-- Last character of a string, if any. -/
def strLastChar (s : String) : Option Char := s.data.getLast?

theorem strLastChar_append (a b : String) (hb : b.data ≠ []) :
    strLastChar (a ++ b) = strLastChar b := by
  simp only [strLastChar, String.data_append]
  exact List.getLast?_append_of_ne_nil _ hb

theorem strLastChar_logPath (cwd prepost hostname : String) (t : DateTime) :
    strLastChar (logPath cwd prepost hostname t) = some 't' := by
  unfold logPath pathJoin3 showFilename
  rw [strLastChar_append _ _ (by simp [String.data_append]),
    strLastChar_append _ _ (by decide)]
  rfl

theorem strLastChar_bkpPath (cwd prepost hostname : String) (t : DateTime) :
    strLastChar (bkpPath cwd prepost hostname t) = some 'g' := by
  unfold bkpPath pathJoin3 backupFilename
  rw [strLastChar_append _ _ (by simp [String.data_append]),
    strLastChar_append _ _ (by decide)]
  rfl

theorem logPath_ne_bkpPath (cwd prepost h1 h2 : String) (t u : DateTime) :
    logPath cwd prepost h1 t ≠ bkpPath cwd prepost h2 u := by
  intro heq
  have hc := congrArg strLastChar heq
  rw [strLastChar_logPath, strLastChar_bkpPath] at hc
  simp at hc

/-! ## Event classification helpers -/

theorem connAttemptDev_of_exec {x : Event} (h : isExecEvent x = true) :
    connAttemptDev x = none := by
  cases x <;> simp_all [isExecEvent, connAttemptDev]

theorem writePathOf_of_exec {x : Event} (h : isExecEvent x = true) :
    writePathOf x = none := by
  cases x <;> simp_all [isExecEvent, writePathOf]

theorem filterMap_of_all_none {α β : Type} (f : α → Option β) (l : List α)
    (h : ∀ x ∈ l, f x = none) : l.filterMap f = [] := by
  induction l with
  | nil => rfl
  | cons a t ih =>
    rw [List.filterMap_cons, h a (List.mem_cons_self a t)]
    exact ih (fun x hx => h x (List.mem_cons_of_mem _ hx))

theorem filterMap_connAttempt_map_exec (commands : List String) :
    (commands.map Event.execCmd).filterMap connAttemptDev = [] := by
  refine filterMap_of_all_none _ _ (fun x hx => ?_)
  obtain ⟨c, _, rfl⟩ := List.mem_map.mp hx
  rfl

theorem filterMap_write_map_exec (commands : List String) :
    (commands.map Event.execCmd).filterMap writePathOf = [] := by
  refine filterMap_of_all_none _ _ (fun x hx => ?_)
  obtain ⟨c, _, rfl⟩ := List.mem_map.mp hx
  rfl

theorem filterMap_logName_map_exec (commands : List String) :
    (commands.map Event.execCmd).filterMap logNameOf = [] := by
  refine filterMap_of_all_none _ _ (fun x hx => ?_)
  obtain ⟨c, _, rfl⟩ := List.mem_map.mp hx
  rfl

theorem filterMap_bkpName_map_exec (commands : List String) :
    (commands.map Event.execCmd).filterMap bkpNameOf = [] := by
  refine filterMap_of_all_none _ _ (fun x hx => ?_)
  obtain ⟨c, _, rfl⟩ := List.mem_map.mp hx
  rfl

/-! ## The command loop -/

theorem commandLoop_ok (model : DeviceModel) (out : String → String) :
    ∀ (commands : List String), (∀ c ∈ commands, model.sendCommand c = Except.ok (out c)) →
    ∀ (acc : String) (st : St),
    commandLoop model commands acc st =
      Except.ok (commands.foldl (fun a c => a ++ delimChunk c ++ out c) acc,
        { st with events := st.events ++ commands.map Event.execCmd }) := by
  intro commands
  induction commands with
  | nil => intro _ acc st; simp [commandLoop]
  | cons c rest ih =>
    intro h acc st
    have hc : model.sendCommand c = Except.ok (out c) := h c (List.mem_cons_self c rest)
    have ih2 := ih (fun d hd => h d (List.mem_cons_of_mem _ hd))
      (acc ++ delimChunk c ++ out c) (logEvent st (Event.execCmd c))
    simp [logEvent] at ih2
    simp [commandLoop, hc, ih2, logEvent, List.append_assoc]

theorem commandLoop_state (model : DeviceModel) :
    ∀ (commands : List String) (acc : String) (st : St),
    (∀ ret st', commandLoop model commands acc st = Except.ok (ret, st') →
      st'.clock = st.clock ∧ st'.fs = st.fs ∧ st'.output = st.output ∧
      ∃ l, st'.events = st.events ++ l ∧ ∀ x ∈ l, isExecEvent x = true) ∧
    (∀ e st', commandLoop model commands acc st = Except.error (e, st') →
      st'.clock = st.clock ∧ st'.fs = st.fs ∧ st'.output = st.output ∧
      ∃ l, st'.events = st.events ++ l ∧ ∀ x ∈ l, isExecEvent x = true) := by
  intro commands
  induction commands with
  | nil =>
    intro acc st
    constructor
    · intro ret st' hok
      simp only [commandLoop, Except.ok.injEq, Prod.mk.injEq] at hok
      obtain ⟨h1, h2⟩ := hok
      subst h2
      exact ⟨rfl, rfl, rfl, [], by simp, by simp⟩
    · intro e st' herr
      simp [commandLoop] at herr
  | cons c rest ih =>
    intro acc st
    cases hsc : model.sendCommand c with
    | error e =>
      constructor
      · intro ret st' hok
        simp [commandLoop, hsc] at hok
      · intro e' st' herr
        simp only [commandLoop, hsc, Except.error.injEq, Prod.mk.injEq] at herr
        obtain ⟨h1, h2⟩ := herr
        subst h2
        refine ⟨rfl, rfl, rfl, [Event.execCmd c], by simp [logEvent], ?_⟩
        intro x hx
        simp at hx
        subst hx
        rfl
    | ok o =>
      have ih2 := ih (acc ++ delimChunk c ++ o) (logEvent st (Event.execCmd c))
      constructor
      · intro ret st' hok
        simp only [commandLoop, hsc] at hok
        obtain ⟨hck, hfs, ho, l, hev, hexec⟩ := ih2.1 ret st' hok
        refine ⟨hck, hfs, ho, Event.execCmd c :: l, ?_, ?_⟩
        · simpa [logEvent, List.append_assoc] using hev
        · intro x hx
          rcases List.mem_cons.mp hx with hx | hx
          · subst hx; rfl
          · exact hexec x hx
      · intro e st' herr
        simp only [commandLoop, hsc] at herr
        obtain ⟨hck, hfs, ho, l, hev, hexec⟩ := ih2.2 e st' herr
        refine ⟨hck, hfs, ho, Event.execCmd c :: l, ?_, ?_⟩
        · simpa [logEvent, List.append_assoc] using hev
        · intro x hx
          rcases List.mem_cons.mp hx with hx | hx
          · subst hx; rfl
          · exact hexec x hx

/-! ## Master characterizations of one device iteration -/

/-- Status lines printed inside a fully successful `try` body. -/
def sessionOutput (hostname prepost cwd sfn bfn : String) : List String :=
  ["Logged in to " ++ hostname ++ ".", "Getting logs now.",
   "Outdir: " ++ cwd ++ "/Logs/" ++ prepost ++ "/",
   "Logs Filename: " ++ sfn, "", "Backing up config.",
   "Backup Filename: " ++ bfn,
   "Completed! Disconnecting now from " ++ hostname ++ ".", hashLine, ""]

/-- Events recorded inside a fully successful `try` body. -/
def sessionEvents (hostname prepost cwd : String) (t1 t2 : DateTime)
    (commands : List String) : List Event :=
  Event.deriveLogFilename (showFilename hostname prepost t1) ::
    (commands.map Event.execCmd ++
      [Event.openTruncate (logPath cwd prepost hostname t1),
       Event.writeFile (logPath cwd prepost hostname t1),
       Event.deriveBackupFilename (backupFilename hostname t2),
       Event.openTruncate (bkpPath cwd prepost hostname t2),
       Event.writeFile (bkpPath cwd prepost hostname t2)])

theorem tryBody_ok (commands : List String) (prepost cwd : String) (model : DeviceModel)
    (prompt cfg : String) (out : String → String) (st : St)
    (hc : model.connect = none) (hp : model.findPrompt = Except.ok prompt)
    (hcmds : ∀ c ∈ commands, model.sendCommand c = Except.ok (out c))
    (hback : model.sendCommand "show running" = Except.ok cfg) :
    tryBody commands prepost cwd model st =
      Except.ok
        { clock := st.clock.tail.tail
          fs := fsWrite (fsWrite st.fs
                  (logPath cwd prepost (pyReplaceHash prompt) (tick st.clock))
                  (logContent commands out))
                (bkpPath cwd prepost (pyReplaceHash prompt) (tick st.clock.tail)) cfg
          output := st.output ++ sessionOutput (pyReplaceHash prompt) prepost cwd
                      (showFilename (pyReplaceHash prompt) prepost (tick st.clock))
                      (backupFilename (pyReplaceHash prompt) (tick st.clock.tail))
          events := st.events ++ sessionEvents (pyReplaceHash prompt) prepost cwd
                      (tick st.clock) (tick st.clock.tail) commands } := by
  simp only [tryBody, hc, hp]
  rw [commandLoop_ok model out commands hcmds]
  rw [hback]
  simp [printLine, logEvent, stOpenTruncate, stWriteFile, now_snd, now_fst,
    sessionOutput, sessionEvents, logPath, bkpPath, logContent,
    fsWrite_fsWrite_same, List.append_assoc]

/-- Status lines printed inside a `try` body that fails at the backup
`send_command`. -/
def sessionOutputBF (hostname prepost cwd sfn bfn : String) : List String :=
  ["Logged in to " ++ hostname ++ ".", "Getting logs now.",
   "Outdir: " ++ cwd ++ "/Logs/" ++ prepost ++ "/",
   "Logs Filename: " ++ sfn, "", "Backing up config.",
   "Backup Filename: " ++ bfn]

/-- Events recorded inside a `try` body that fails at the backup
`send_command`. -/
def sessionEventsBF (hostname prepost cwd : String) (t1 t2 : DateTime)
    (commands : List String) : List Event :=
  Event.deriveLogFilename (showFilename hostname prepost t1) ::
    (commands.map Event.execCmd ++
      [Event.openTruncate (logPath cwd prepost hostname t1),
       Event.writeFile (logPath cwd prepost hostname t1),
       Event.deriveBackupFilename (backupFilename hostname t2),
       Event.openTruncate (bkpPath cwd prepost hostname t2)])

theorem tryBody_backupFail (commands : List String) (prepost cwd : String)
    (model : DeviceModel) (prompt : String) (out : String → String) (e : NetmikoExc) (st : St)
    (hc : model.connect = none) (hp : model.findPrompt = Except.ok prompt)
    (hcmds : ∀ c ∈ commands, model.sendCommand c = Except.ok (out c))
    (hbackE : model.sendCommand "show running" = Except.error e) :
    tryBody commands prepost cwd model st =
      Except.error (e,
        { clock := st.clock.tail.tail
          fs := fsWrite (fsWrite st.fs
                  (logPath cwd prepost (pyReplaceHash prompt) (tick st.clock))
                  (logContent commands out))
                (bkpPath cwd prepost (pyReplaceHash prompt) (tick st.clock.tail)) ""
          output := st.output ++ sessionOutputBF (pyReplaceHash prompt) prepost cwd
                      (showFilename (pyReplaceHash prompt) prepost (tick st.clock))
                      (backupFilename (pyReplaceHash prompt) (tick st.clock.tail))
          events := st.events ++ sessionEventsBF (pyReplaceHash prompt) prepost cwd
                      (tick st.clock) (tick st.clock.tail) commands }) := by
  simp only [tryBody, hc, hp]
  rw [commandLoop_ok model out commands hcmds]
  rw [hbackE]
  simp [printLine, logEvent, stOpenTruncate, stWriteFile, now_snd, now_fst,
    sessionOutputBF, sessionEventsBF, logPath, bkpPath, logContent,
    fsWrite_fsWrite_same, List.append_assoc]

/-- The three banner lines printed before each connection attempt. -/
def connectBanner (dev : String) : List String :=
  [hashLine, "Connecting to " ++ dev ++ "..", hashLine]

theorem processDevice_ok (dev : String) (commands : List String) (prepost cwd : String)
    (model : DeviceModel) (prompt cfg : String) (out : String → String) (st : St)
    (hc : model.connect = none) (hp : model.findPrompt = Except.ok prompt)
    (hcmds : ∀ c ∈ commands, model.sendCommand c = Except.ok (out c))
    (hback : model.sendCommand "show running" = Except.ok cfg) :
    processDevice dev commands prepost cwd model st =
      { clock := st.clock.tail.tail
        fs := fsWrite (fsWrite st.fs
                (logPath cwd prepost (pyReplaceHash prompt) (tick st.clock))
                (logContent commands out))
              (bkpPath cwd prepost (pyReplaceHash prompt) (tick st.clock.tail)) cfg
        output := st.output ++ (connectBanner dev ++ sessionOutput (pyReplaceHash prompt)
                    prepost cwd
                    (showFilename (pyReplaceHash prompt) prepost (tick st.clock))
                    (backupFilename (pyReplaceHash prompt) (tick st.clock.tail)))
        events := st.events ++ (Event.connectAttempt dev ::
                    sessionEvents (pyReplaceHash prompt) prepost cwd
                      (tick st.clock) (tick st.clock.tail) commands) } := by
  simp only [processDevice]
  rw [tryBody_ok commands prepost cwd model prompt cfg out _ hc hp hcmds hback]
  simp [printLine, logEvent, connectBanner, List.append_assoc]

theorem processDevice_connectFail (dev : String) (commands : List String)
    (prepost cwd : String) (model : DeviceModel) (e : NetmikoExc) (st : St)
    (hc : model.connect = some e) :
    processDevice dev commands prepost cwd model st =
      { clock := st.clock
        fs := st.fs
        output := st.output ++ (connectBanner dev ++ [skipMsg e, hashLine, ""])
        events := st.events ++ [Event.connectAttempt dev, Event.skipped dev e] } := by
  simp [processDevice, tryBody, hc, printLine, logEvent, connectBanner, List.append_assoc]

theorem processDevice_promptFail (dev : String) (commands : List String)
    (prepost cwd : String) (model : DeviceModel) (e : NetmikoExc) (st : St)
    (hc : model.connect = none) (hp : model.findPrompt = Except.error e) :
    processDevice dev commands prepost cwd model st =
      { clock := st.clock
        fs := st.fs
        output := st.output ++ (connectBanner dev ++ [skipMsg e, hashLine, ""])
        events := st.events ++ [Event.connectAttempt dev, Event.skipped dev e] } := by
  simp [processDevice, tryBody, hc, hp, printLine, logEvent, connectBanner, List.append_assoc]

theorem processDevice_backupFail (dev : String) (commands : List String)
    (prepost cwd : String) (model : DeviceModel) (prompt : String)
    (out : String → String) (e : NetmikoExc) (st : St)
    (hc : model.connect = none) (hp : model.findPrompt = Except.ok prompt)
    (hcmds : ∀ c ∈ commands, model.sendCommand c = Except.ok (out c))
    (hbackE : model.sendCommand "show running" = Except.error e) :
    processDevice dev commands prepost cwd model st =
      { clock := st.clock.tail.tail
        fs := fsWrite (fsWrite st.fs
                (logPath cwd prepost (pyReplaceHash prompt) (tick st.clock))
                (logContent commands out))
              (bkpPath cwd prepost (pyReplaceHash prompt) (tick st.clock.tail)) ""
        output := st.output ++ (connectBanner dev ++
                    (sessionOutputBF (pyReplaceHash prompt) prepost cwd
                      (showFilename (pyReplaceHash prompt) prepost (tick st.clock))
                      (backupFilename (pyReplaceHash prompt) (tick st.clock.tail)) ++
                     [skipMsg e, hashLine, ""]))
        events := st.events ++ (Event.connectAttempt dev ::
                    (sessionEventsBF (pyReplaceHash prompt) prepost cwd
                      (tick st.clock) (tick st.clock.tail) commands ++
                     [Event.skipped dev e])) } := by
  simp only [processDevice]
  rw [tryBody_backupFail commands prepost cwd model prompt out e _ hc hp hcmds hbackE]
  simp [printLine, logEvent, connectBanner, sessionOutputBF, sessionEventsBF,
    List.append_assoc]

theorem processDevice_cmdFailFirst (dev c : String) (rest : List String)
    (prepost cwd : String) (model : DeviceModel) (prompt : String) (e : NetmikoExc) (st : St)
    (hc : model.connect = none) (hp : model.findPrompt = Except.ok prompt)
    (hcmd : model.sendCommand c = Except.error e) :
    processDevice dev (c :: rest) prepost cwd model st =
      { clock := st.clock.tail
        fs := st.fs
        output := st.output ++ (connectBanner dev ++
                    ["Logged in to " ++ pyReplaceHash prompt ++ ".", "Getting logs now.",
                     "Outdir: " ++ cwd ++ "/Logs/" ++ prepost ++ "/",
                     "Logs Filename: " ++
                       showFilename (pyReplaceHash prompt) prepost (tick st.clock),
                     skipMsg e, hashLine, ""])
        events := st.events ++
                    [Event.connectAttempt dev,
                     Event.deriveLogFilename
                       (showFilename (pyReplaceHash prompt) prepost (tick st.clock)),
                     Event.execCmd c, Event.skipped dev e] } := by
  simp only [processDevice, tryBody, hc, hp, commandLoop, hcmd]
  simp [printLine, logEvent, connectBanner, now_snd, now_fst, List.append_assoc]

theorem fsWrite_rerun (A : List (String × String)) (lp bp c d : String) (hne : lp ≠ bp) :
    fsWrite (fsWrite (fsWrite (fsWrite A lp c) bp d) lp c) bp d =
      fsWrite (fsWrite A lp c) bp d := by
  have hne' : bp ≠ lp := Ne.symm hne
  simp only [fsWrite]
  simp [List.filter_cons, hne, hne', List.filter_filter, Bool.and_comm, Bool.and_left_comm,
    Bool.and_self]

/-! ## General trace shape, for any transport behavior -/

theorem tryBody_trace (commands : List String) (prepost cwd : String)
    (model : DeviceModel) (st : St) :
    (∀ st', tryBody commands prepost cwd model st = Except.ok st' →
      ∃ l, st'.events = st.events ++ l ∧ l.filterMap connAttemptDev = [] ∧
        ∃ h t u, l.filterMap writePathOf =
          [logPath cwd prepost h t, bkpPath cwd prepost h u]) ∧
    (∀ e st', tryBody commands prepost cwd model st = Except.error (e, st') →
      ∃ l, st'.events = st.events ++ l ∧ l.filterMap connAttemptDev = [] ∧
        (l.filterMap writePathOf = [] ∨
         ∃ h t, l.filterMap writePathOf = [logPath cwd prepost h t])) := by
  cases hc : model.connect with
  | some e =>
    constructor
    · intro st' hok
      simp [tryBody, hc] at hok
    · intro e' st' herr
      simp only [tryBody, hc, Except.error.injEq, Prod.mk.injEq] at herr
      obtain ⟨-, h2⟩ := herr
      subst h2
      exact ⟨[], by simp, by simp, Or.inl (by simp)⟩
  | none =>
    cases hp : model.findPrompt with
    | error e =>
      constructor
      · intro st' hok
        simp [tryBody, hc, hp] at hok
      · intro e' st' herr
        simp only [tryBody, hc, hp, Except.error.injEq, Prod.mk.injEq] at herr
        obtain ⟨-, h2⟩ := herr
        subst h2
        exact ⟨[], by simp, by simp, Or.inl (by simp)⟩
    | ok prompt =>
      constructor
      · intro st' hok
        simp only [tryBody, hc, hp] at hok
        split at hok
        · simp at hok
        · rename_i output stM heq
          split at hok
          · simp at hok
          · rename_i cfg hback
            injection hok with hok2
            subst hok2
            obtain ⟨hck, hfs, ho, l, hev, hexec⟩ :=
              (commandLoop_state model commands "" _).1 output stM heq
            simp only [printLine_events, logEvent_events, now_snd_events] at hev
            refine ⟨Event.deriveLogFilename
                (showFilename (pyReplaceHash prompt) prepost (tick st.clock)) ::
                (l ++ [Event.openTruncate (logPath cwd prepost (pyReplaceHash prompt)
                         (tick st.clock)),
                       Event.writeFile (logPath cwd prepost (pyReplaceHash prompt)
                         (tick st.clock)),
                       Event.deriveBackupFilename (backupFilename (pyReplaceHash prompt)
                         (tick stM.clock)),
                       Event.openTruncate (bkpPath cwd prepost (pyReplaceHash prompt)
                         (tick stM.clock)),
                       Event.writeFile (bkpPath cwd prepost (pyReplaceHash prompt)
                         (tick stM.clock))]), ?_, ?_, ?_⟩
            · simp [hev, logPath, bkpPath, List.append_assoc]
            · simp [List.filterMap_append, List.filterMap_cons, connAttemptDev,
                filterMap_of_all_none _ l (fun x hx => connAttemptDev_of_exec (hexec x hx))]
            · refine ⟨pyReplaceHash prompt, tick st.clock, tick stM.clock, ?_⟩
              simp [List.filterMap_append, List.filterMap_cons, writePathOf,
                filterMap_of_all_none _ l (fun x hx => writePathOf_of_exec (hexec x hx))]
      · intro e' st' herr
        simp only [tryBody, hc, hp] at herr
        split at herr
        · rename_i es heq
          obtain ⟨e2, stE⟩ := es
          simp only [Except.error.injEq, Prod.mk.injEq] at herr
          obtain ⟨-, h2⟩ := herr
          subst h2
          obtain ⟨hck, hfs, ho, l, hev, hexec⟩ :=
            (commandLoop_state model commands "" _).2 e2 stE heq
          simp only [printLine_events, logEvent_events, now_snd_events] at hev
          refine ⟨Event.deriveLogFilename
              (showFilename (pyReplaceHash prompt) prepost (tick st.clock)) :: l,
              ?_, ?_, Or.inl ?_⟩
          · simp [hev, List.append_assoc]
          · simp [List.filterMap_cons, connAttemptDev,
              filterMap_of_all_none _ l (fun x hx => connAttemptDev_of_exec (hexec x hx))]
          · simp [List.filterMap_cons, writePathOf,
              filterMap_of_all_none _ l (fun x hx => writePathOf_of_exec (hexec x hx))]
        · rename_i output stM heq
          split at herr
          · rename_i e2 hback
            simp only [Except.error.injEq, Prod.mk.injEq] at herr
            obtain ⟨-, h2⟩ := herr
            subst h2
            obtain ⟨hck, hfs, ho, l, hev, hexec⟩ :=
              (commandLoop_state model commands "" _).1 output stM heq
            simp only [printLine_events, logEvent_events, now_snd_events] at hev
            refine ⟨Event.deriveLogFilename
                (showFilename (pyReplaceHash prompt) prepost (tick st.clock)) ::
                (l ++ [Event.openTruncate (logPath cwd prepost (pyReplaceHash prompt)
                         (tick st.clock)),
                       Event.writeFile (logPath cwd prepost (pyReplaceHash prompt)
                         (tick st.clock)),
                       Event.deriveBackupFilename (backupFilename (pyReplaceHash prompt)
                         (tick stM.clock)),
                       Event.openTruncate (bkpPath cwd prepost (pyReplaceHash prompt)
                         (tick stM.clock))]), ?_, ?_, Or.inr ?_⟩
            · simp [hev, logPath, bkpPath, List.append_assoc]
            · simp [List.filterMap_append, List.filterMap_cons, connAttemptDev,
                filterMap_of_all_none _ l (fun x hx => connAttemptDev_of_exec (hexec x hx))]
            · refine ⟨pyReplaceHash prompt, tick st.clock, ?_⟩
              simp [List.filterMap_append, List.filterMap_cons, writePathOf,
                filterMap_of_all_none _ l (fun x hx => writePathOf_of_exec (hexec x hx))]
          · simp at herr

theorem processDevice_trace (dev : String) (commands : List String) (prepost cwd : String)
    (model : DeviceModel) (st : St) :
    ∃ l, (processDevice dev commands prepost cwd model st).events =
        st.events ++ (Event.connectAttempt dev :: l) ∧
      l.filterMap connAttemptDev = [] ∧
      (l.filterMap writePathOf = [] ∨
       (∃ h t, l.filterMap writePathOf = [logPath cwd prepost h t]) ∨
       (∃ h t u, l.filterMap writePathOf =
          [logPath cwd prepost h t, bkpPath cwd prepost h u])) := by
  simp only [processDevice]
  obtain ⟨hok, herr⟩ := tryBody_trace commands prepost cwd model
    (logEvent (printLine (printLine (printLine st hashLine)
      ("Connecting to " ++ dev ++ "..")) hashLine) (Event.connectAttempt dev))
  split
  · rename_i st' heq
    obtain ⟨l, hev, hconn, hwr⟩ := hok st' heq
    refine ⟨l, ?_, hconn, Or.inr (Or.inr hwr)⟩
    simp only [logEvent_events, printLine_events] at hev
    simp [hev, List.append_assoc]
  · rename_i e st2 heq
    obtain ⟨l, hev, hconn, hwr⟩ := herr e st2 heq
    refine ⟨l ++ [Event.skipped dev e], ?_, ?_, ?_⟩
    · simp only [logEvent_events, printLine_events, hev]
      simp [List.append_assoc]
    · simp [List.filterMap_append, hconn, connAttemptDev]
    · rcases hwr with hwr | ⟨h, t, hwr⟩
      · exact Or.inl (by simp [List.filterMap_append, hwr, writePathOf])
      · exact Or.inr (Or.inl ⟨h, t, by simp [List.filterMap_append, hwr, writePathOf]⟩)

theorem connectAttempts_prepostchecks (commands : List String)
    (behavior : String → DeviceModel) (prepost cwd : String) :
    ∀ (devices : List String) (st : St),
    connectAttempts (prepostchecks devices commands behavior prepost cwd st) =
      connectAttempts st ++ devices := by
  intro devices
  induction devices with
  | nil => intro st; simp [prepostchecks]
  | cons d rest ih =>
    intro st
    simp only [prepostchecks]
    rw [ih]
    obtain ⟨l, hev, hconn, -⟩ := processDevice_trace d commands prepost cwd (behavior d) st
    simp [connectAttempts, hev, List.filterMap_append, List.filterMap_cons,
      connAttemptDev, hconn]

/-! ## Claim theorems -/

/-- Claim C1: for every device list and command list, the batch driver
attempts every element of the device list exactly once, in input order,
strictly sequentially, with no early termination caused by a per-device
failure: whatever each device's transport does, the connection attempts
recorded by the finished run are exactly the input device list. -/
theorem C1_batch_attempts_every_device_once_in_order
    (devices commands : List String) (behavior : String → DeviceModel)
    (prepost cwd : String) (clock : List DateTime) :
    connectAttempts
        (prepostchecks devices commands behavior prepost cwd (initSt clock)) =
      devices := by
  rw [connectAttempts_prepostchecks]
  simp [connectAttempts, initSt]

/-- Claim C2: a device whose connection attempt raises an
authentication or unreachable failure gets no log or backup artifact
(the filesystem is untouched) and the skip message naming the reason is
emitted; in general each device iteration performs at most one log
write and at most one backup write (a backup write only following a log
write), and the driver still attempts every remaining device. -/
theorem C2_connect_failure_leaves_no_artifacts
    (dev : String) (commands : List String) (prepost cwd : String)
    (model : DeviceModel) (behavior : String → DeviceModel) (st : St) (e : NetmikoExc) :
    (model.connect = some e →
      (processDevice dev commands prepost cwd model st).fs = st.fs ∧
      skipMsg e ∈ (processDevice dev commands prepost cwd model st).output) ∧
    (∃ w, writesOf (processDevice dev commands prepost cwd model st) = writesOf st ++ w ∧
      (w = [] ∨ (∃ h t, w = [logPath cwd prepost h t]) ∨
       (∃ h t u, w = [logPath cwd prepost h t, bkpPath cwd prepost h u]))) ∧
    (∀ rest, connectAttempts
        (prepostchecks (dev :: rest) commands behavior prepost cwd st) =
      connectAttempts st ++ dev :: rest) := by
  refine ⟨?_, ?_, ?_⟩
  · intro hc
    rw [processDevice_connectFail dev commands prepost cwd model e st hc]
    exact ⟨rfl, by simp [connectBanner]⟩
  · obtain ⟨l, hev, hconn, hwr⟩ := processDevice_trace dev commands prepost cwd model st
    exact ⟨l.filterMap writePathOf,
      by simp [writesOf, hev, List.filterMap_append, List.filterMap_cons, writePathOf], hwr⟩
  · intro rest
    exact connectAttempts_prepostchecks commands behavior prepost cwd (dev :: rest) st

/-- Witness for C2: the device `10.0.0.2` rejects the credentials, the
filesystem stays empty and the authentication skip message is printed. -/
theorem C2_connect_failure_witness :
    (processDevice "10.0.0.2" ["show version"] "Pre" "/w" authFailModel
        (initSt [t0, tA])).fs = (initSt [t0, tA]).fs ∧
      skipMsg NetmikoExc.authFail ∈
        (processDevice "10.0.0.2" ["show version"] "Pre" "/w" authFailModel
          (initSt [t0, tA])).output :=
  (C2_connect_failure_leaves_no_artifacts "10.0.0.2" ["show version"] "Pre" "/w"
    authFailModel (fun _ => authFailModel) (initSt [t0, tA]) NetmikoExc.authFail).1 rfl

/-- Claim C3: for a successfully processed device, the log artifact
holds, for each command in exactly the input order, the delimiter chunk
containing the literal command text followed by that command's raw
output (`logContent`), stored at the log path by a single overwriting
write; the run performs exactly one log write and one backup write. -/
theorem C3_log_buffer_order_and_single_write
    (dev : String) (commands : List String) (prepost cwd : String)
    (model : DeviceModel) (prompt cfg : String) (out : String → String) (st : St)
    (hc : model.connect = none) (hp : model.findPrompt = Except.ok prompt)
    (hcmds : ∀ c ∈ commands, model.sendCommand c = Except.ok (out c))
    (hback : model.sendCommand "show running" = Except.ok cfg) :
    fsLookup (processDevice dev commands prepost cwd model st).fs
        (logPath cwd prepost (pyReplaceHash prompt) (tick st.clock)) =
      some (logContent commands out) ∧
    writesOf (processDevice dev commands prepost cwd model st) =
      writesOf st ++ [logPath cwd prepost (pyReplaceHash prompt) (tick st.clock),
        bkpPath cwd prepost (pyReplaceHash prompt) (tick st.clock.tail)] := by
  rw [processDevice_ok dev commands prepost cwd model prompt cfg out st hc hp hcmds hback]
  constructor
  · rw [fsLookup_fsWrite_ne _ _ _ _
      (logPath_ne_bkpPath cwd prepost (pyReplaceHash prompt) (pyReplaceHash prompt)
        (tick st.clock) (tick st.clock.tail))]
    exact fsLookup_fsWrite_self _ _ _
  · simp [writesOf, sessionEvents, List.filterMap_append, List.filterMap_cons,
      writePathOf, filterMap_write_map_exec]

/-- Witness for C3: a concrete two-command run against `R1`. -/
theorem C3_log_buffer_witness :
    fsLookup (processDevice "10.0.0.1" ["show version", "show ip route"] "Pre" "/w"
        okModel (initSt [t0, tA])).fs
      (logPath "/w" "Pre" (pyReplaceHash "R1#") (tick (initSt [t0, tA]).clock)) =
      some (logContent ["show version", "show ip route"] okOut) ∧
    writesOf (processDevice "10.0.0.1" ["show version", "show ip route"] "Pre" "/w"
        okModel (initSt [t0, tA])) =
      writesOf (initSt [t0, tA]) ++
        [logPath "/w" "Pre" (pyReplaceHash "R1#") (tick (initSt [t0, tA]).clock),
         bkpPath "/w" "Pre" (pyReplaceHash "R1#") (tick (initSt [t0, tA]).clock.tail)] :=
  C3_log_buffer_order_and_single_write "10.0.0.1" ["show version", "show ip route"]
    "Pre" "/w" okModel "R1#" (okOut "show running") okOut (initSt [t0, tA])
    rfl rfl (fun _ _ => rfl) rfl

/-- Claim C5 is what the code documents but not what it does: `int("")`
raises `ValueError`, so a blank port entry is rejected with the
invalid-input message and the prompt repeats; the `port = "22"` branch
is unreachable and no run ever gets the default port from a blank
entry. (A non-numeric non-blank entry is indeed rejected and the prompt
repeats.) -/
theorem C5_blank_port_is_rejected_not_defaulted :
    pyIntOk "" = false ∧
    (∀ rest, portLoop ("" :: rest) = portLoop rest) ∧
    portLoop [""] = none ∧
    (∀ rest, portLoop ("abc" :: rest) = portLoop rest) ∧
    portLoop ["", "8022"] = some "8022" := by
  have h1 : pyIntOk "" = false := by decide
  have h2 : pyIntOk "abc" = false := by decide
  exact ⟨h1, fun rest => by simp [portLoop, h1], by decide,
    fun rest => by simp [portLoop, h2], by decide⟩

/-- Claim C9: the bootstrap creates at most one directory per run:
`Logs/Pre` whenever it is missing — even when `Logs/Post` is missing as
well, whatever run mode was selected (the code never consults the run
mode here) — and `Logs/Post` only when `Logs/Pre` already exists. -/
theorem C9_bootstrap_creates_at_most_one_dir (dirs : List String) :
    (mainBootstrap dirs).length ≤ dirs.length + 1 ∧
    (osPathExists dirs "./Logs/Pre" = false →
      mainBootstrap dirs = dirs ++ ["./Logs/Pre"]) ∧
    (osPathExists dirs "./Logs/Pre" = true →
      osPathExists dirs "./Logs/Post" = false →
      mainBootstrap dirs = dirs ++ ["./Logs/Post"]) ∧
    (osPathExists dirs "./Logs/Pre" = true →
      osPathExists dirs "./Logs/Post" = true →
      mainBootstrap dirs = dirs) := by
  unfold mainBootstrap
  cases hpre : osPathExists dirs "./Logs/Pre" <;>
    cases hpost : osPathExists dirs "./Logs/Post" <;>
      simp [hpre, hpost]

/-- Witness for C9: with no directory present only `Logs/Pre` is
created, even though `Logs/Post` is missing too. -/
theorem C9_bootstrap_witness :
    osPathExists [] "./Logs/Pre" = false ∧
    osPathExists [] "./Logs/Post" = false ∧
    mainBootstrap [] = [] ++ ["./Logs/Pre"] :=
  ⟨rfl, rfl, (C9_bootstrap_creates_at_most_one_dir []).2.1 rfl⟩

/-- Claim C4 is refuted as stated: in this concrete successful run a
filename derivation (the backup filename, line 123 of the source)
happens after command execution, so it is not true that both artifact
filenames are derived in step 3 before command execution. -/
theorem C4_counterexample_backup_name_derived_late :
    noDeriveAfterExec
      (prepostchecks ["10.0.0.1"] ["show version"] (fun _ => okModel) "Pre" "/w"
        (initSt [t0, tA])).events = false := by decide

/-- Claim C4 amended: the LOG filename is derived before command
execution, in the claimed format with a timestamp captured at that
moment, while the BACKUP filename is derived only after all commands
executed and the log was written, consuming its own later timestamp;
both paths lie under `Logs/{RunMode}` and only the log filename carries
the run-mode tag. -/
theorem C4_amended_log_name_before_exec_backup_name_after
    (dev : String) (commands : List String) (prepost cwd : String)
    (model : DeviceModel) (prompt cfg : String) (out : String → String) (st : St)
    (hc : model.connect = none) (hp : model.findPrompt = Except.ok prompt)
    (hcmds : ∀ c ∈ commands, model.sendCommand c = Except.ok (out c))
    (hback : model.sendCommand "show running" = Except.ok cfg) :
    (processDevice dev commands prepost cwd model st).events =
      st.events ++
        (Event.connectAttempt dev ::
         Event.deriveLogFilename
           (showFilename (pyReplaceHash prompt) prepost (tick st.clock)) ::
         (commands.map Event.execCmd ++
          [Event.openTruncate
             (logPath cwd prepost (pyReplaceHash prompt) (tick st.clock)),
           Event.writeFile
             (logPath cwd prepost (pyReplaceHash prompt) (tick st.clock)),
           Event.deriveBackupFilename
             (backupFilename (pyReplaceHash prompt) (tick st.clock.tail)),
           Event.openTruncate
             (bkpPath cwd prepost (pyReplaceHash prompt) (tick st.clock.tail)),
           Event.writeFile
             (bkpPath cwd prepost (pyReplaceHash prompt) (tick st.clock.tail))])) := by
  rw [processDevice_ok dev commands prepost cwd model prompt cfg out st hc hp hcmds hback]
  simp [sessionEvents]

/-- Witness for the amended C4 on a concrete successful run. -/
theorem C4_amended_witness :
    (processDevice "10.0.0.1" ["show version"] "Pre" "/w" okModel
        (initSt [t0, tA])).events =
      (initSt [t0, tA]).events ++
        (Event.connectAttempt "10.0.0.1" ::
         Event.deriveLogFilename
           (showFilename (pyReplaceHash "R1#") "Pre" (tick (initSt [t0, tA]).clock)) ::
         (["show version"].map Event.execCmd ++
          [Event.openTruncate
             (logPath "/w" "Pre" (pyReplaceHash "R1#") (tick (initSt [t0, tA]).clock)),
           Event.writeFile
             (logPath "/w" "Pre" (pyReplaceHash "R1#") (tick (initSt [t0, tA]).clock)),
           Event.deriveBackupFilename
             (backupFilename (pyReplaceHash "R1#") (tick (initSt [t0, tA]).clock.tail)),
           Event.openTruncate
             (bkpPath "/w" "Pre" (pyReplaceHash "R1#") (tick (initSt [t0, tA]).clock.tail)),
           Event.writeFile
             (bkpPath "/w" "Pre" (pyReplaceHash "R1#")
               (tick (initSt [t0, tA]).clock.tail))])) :=
  C4_amended_log_name_before_exec_backup_name_after "10.0.0.1" ["show version"]
    "Pre" "/w" okModel "R1#" (okOut "show running") okOut (initSt [t0, tA])
    rfl rfl (fun _ _ => rfl) rfl

/-- Claim C6 is refuted as stated: `find_prompt().replace("#", "")`
removes every `#`, interior occurrences included, so for the prompt
`Edge#1#` the run derives its log filename from hostname `Edge1`, while
stripping only the trailing prompt terminator would give `Edge#1`. -/
theorem C6_counterexample_interior_hash_removed :
    logNames (processDevice "10.0.0.9" [] "Pre" "/w" edgeModel (initSt [t0, tA])) =
      [showFilename "Edge1" "Pre" t0] ∧
    pyReplaceHash "Edge#1#" = "Edge1" ∧
    specStripTrailingHash "Edge#1#" = "Edge#1" ∧
    ("Edge1" : String) ≠ "Edge#1" := by
  exact ⟨by decide, by decide, by decide, by decide⟩

/-- Claim C6 amended: the hostname used in both artifact filenames and
in the status messages is the self-reported prompt with every `#`
removed — trailing and interior alike. -/
theorem C6_amended_hostname_removes_every_hash
    (dev : String) (commands : List String) (prepost cwd : String)
    (model : DeviceModel) (prompt cfg : String) (out : String → String) (st : St)
    (hc : model.connect = none) (hp : model.findPrompt = Except.ok prompt)
    (hcmds : ∀ c ∈ commands, model.sendCommand c = Except.ok (out c))
    (hback : model.sendCommand "show running" = Except.ok cfg) :
    logNames (processDevice dev commands prepost cwd model st) =
      logNames st ++ [showFilename (pyReplaceHash prompt) prepost (tick st.clock)] ∧
    bkpNames (processDevice dev commands prepost cwd model st) =
      bkpNames st ++ [backupFilename (pyReplaceHash prompt) (tick st.clock.tail)] ∧
    ("Logged in to " ++ pyReplaceHash prompt ++ ".") ∈
      (processDevice dev commands prepost cwd model st).output := by
  rw [processDevice_ok dev commands prepost cwd model prompt cfg out st hc hp hcmds hback]
  refine ⟨?_, ?_, ?_⟩
  · simp [logNames, sessionEvents, List.filterMap_append, List.filterMap_cons,
      logNameOf, filterMap_logName_map_exec]
  · simp [bkpNames, sessionEvents, List.filterMap_append, List.filterMap_cons,
      bkpNameOf, filterMap_bkpName_map_exec]
  · simp [sessionOutput, connectBanner]

/-- Witness for the amended C6: prompt `Edge#1#` yields hostname
`Edge1` in the derived filenames and the login message. -/
theorem C6_amended_witness :
    logNames (processDevice "10.0.0.9" ["show version"] "Pre" "/w" edgeModel
        (initSt [t0, tA])) =
      logNames (initSt [t0, tA]) ++
        [showFilename (pyReplaceHash "Edge#1#") "Pre" (tick (initSt [t0, tA]).clock)] ∧
    bkpNames (processDevice "10.0.0.9" ["show version"] "Pre" "/w" edgeModel
        (initSt [t0, tA])) =
      bkpNames (initSt [t0, tA]) ++
        [backupFilename (pyReplaceHash "Edge#1#") (tick (initSt [t0, tA]).clock.tail)] ∧
    ("Logged in to " ++ pyReplaceHash "Edge#1#" ++ ".") ∈
      (processDevice "10.0.0.9" ["show version"] "Pre" "/w" edgeModel
        (initSt [t0, tA])).output :=
  C6_amended_hostname_removes_every_hash "10.0.0.9" ["show version"] "Pre" "/w"
    edgeModel "Edge#1#" (okOut "show running") okOut (initSt [t0, tA])
    rfl rfl (fun _ _ => rfl) rfl

/-- Claim C7: artifact filenames are a deterministic function of
hostname, run mode and timestamp — a second run whose two `now()` calls
fall on the same instants derives exactly the same log and backup
filenames — and because both files are opened for full overwrite the
second run's filesystem is identical to the first run's: the artifacts
are overwritten in place, with no duplicate files and no error. -/
theorem C7_same_minute_rerun_overwrites_in_place
    (dev : String) (commands : List String) (prepost cwd : String)
    (model : DeviceModel) (prompt cfg : String) (out : String → String)
    (st st' : St) (t1 t2 : DateTime)
    (hc : model.connect = none) (hp : model.findPrompt = Except.ok prompt)
    (hcmds : ∀ c ∈ commands, model.sendCommand c = Except.ok (out c))
    (hback : model.sendCommand "show running" = Except.ok cfg)
    (hclk : st.clock = [t1, t2]) (hclk' : st'.clock = [t1, t2])
    (hfs' : st'.fs = (processDevice dev commands prepost cwd model st).fs) :
    (processDevice dev commands prepost cwd model st').fs =
      (processDevice dev commands prepost cwd model st).fs ∧
    logNames (processDevice dev commands prepost cwd model st) =
      logNames st ++ [showFilename (pyReplaceHash prompt) prepost t1] ∧
    logNames (processDevice dev commands prepost cwd model st') =
      logNames st' ++ [showFilename (pyReplaceHash prompt) prepost t1] ∧
    bkpNames (processDevice dev commands prepost cwd model st) =
      bkpNames st ++ [backupFilename (pyReplaceHash prompt) t2] ∧
    bkpNames (processDevice dev commands prepost cwd model st') =
      bkpNames st' ++ [backupFilename (pyReplaceHash prompt) t2] := by
  have h1 := processDevice_ok dev commands prepost cwd model prompt cfg out st
    hc hp hcmds hback
  have h2 := processDevice_ok dev commands prepost cwd model prompt cfg out st'
    hc hp hcmds hback
  rw [hclk] at h1
  rw [hclk'] at h2
  simp only [tick, List.headD, List.tail_cons] at h1 h2
  rw [h1] at hfs'
  simp only [] at hfs'
  rw [h1, h2]
  refine ⟨?_, ?_, ?_, ?_, ?_⟩
  · show fsWrite (fsWrite st'.fs _ _) _ _ = _
    rw [hfs']
    exact fsWrite_rerun st.fs _ _ _ _
      (logPath_ne_bkpPath cwd prepost (pyReplaceHash prompt) (pyReplaceHash prompt) t1 t2)
  · simp [logNames, sessionEvents, List.filterMap_append, List.filterMap_cons,
      logNameOf, filterMap_logName_map_exec]
  · simp [logNames, sessionEvents, List.filterMap_append, List.filterMap_cons,
      logNameOf, filterMap_logName_map_exec]
  · simp [bkpNames, sessionEvents, List.filterMap_append, List.filterMap_cons,
      bkpNameOf, filterMap_bkpName_map_exec]
  · simp [bkpNames, sessionEvents, List.filterMap_append, List.filterMap_cons,
      bkpNameOf, filterMap_bkpName_map_exec]

/-- Witness for C7: the second run literally reuses the first run's
filesystem with the clock reset to the same two instants. -/
theorem C7_same_minute_rerun_witness :
    (processDevice "10.0.0.1" ["show version"] "Pre" "/w" okModel
        { processDevice "10.0.0.1" ["show version"] "Pre" "/w" okModel
            (initSt [t0, tA]) with clock := [t0, tA] }).fs =
      (processDevice "10.0.0.1" ["show version"] "Pre" "/w" okModel
        (initSt [t0, tA])).fs ∧
    logNames (processDevice "10.0.0.1" ["show version"] "Pre" "/w" okModel
        (initSt [t0, tA])) =
      logNames (initSt [t0, tA]) ++ [showFilename (pyReplaceHash "R1#") "Pre" t0] :=
  by
    have h := C7_same_minute_rerun_overwrites_in_place "10.0.0.1" ["show version"]
      "Pre" "/w" okModel "R1#" (okOut "show running") okOut (initSt [t0, tA])
      { processDevice "10.0.0.1" ["show version"] "Pre" "/w" okModel
          (initSt [t0, tA]) with clock := [t0, tA] }
      t0 tA rfl rfl (fun _ _ => rfl) rfl rfl rfl rfl
    exact ⟨h.1, h.2.1⟩

set_option maxRecDepth 4000 in
/-- Claim C8 is refuted as stated: the delimiter width does depend on
the command once its length exceeds 80 characters (the padding term
collapses to zero and the line grows with the command). -/
theorem C8_counterexample_width_grows_past_80 :
    (delimLine (strRepeat 'x' 81)).length = 101 ∧
    (delimLine "show version").length = 100 ∧
    (delimLine (strRepeat 'x' 81)).length ≠ (delimLine "show version").length := by
  exact ⟨by decide, by decide, by decide⟩

/-- Claim C8 amended: for commands of length at most 80 the delimiter
line has the fixed total width 100 — 20 leading stars, the literal
command text, and enough trailing stars to pad to 100 — independent of
the command's length. -/
theorem C8_amended_fixed_width_for_commands_up_to_80 (c : String) (h : c.length ≤ 80) :
    (delimLine c).length = 100 ∧
    delimLine c = strRepeat '*' 20 ++ (c ++ strRepeat '*' (80 - c.length)) := by
  constructor
  · simp only [delimLine, String.length_append, strRepeat, String.length_mk,
      List.length_replicate]
    omega
  · simp [delimLine, String.append_assoc]

/-- Witness for the amended C8 at a representative command. -/
theorem C8_amended_witness :
    ("show version".length ≤ 80) ∧
    ((delimLine "show version").length = 100 ∧
      delimLine "show version" =
        strRepeat '*' 20 ++ ("show version" ++ strRepeat '*' (80 - "show version".length))) :=
  ⟨by decide, C8_amended_fixed_width_for_commands_up_to_80 "show version" (by decide)⟩

/-- Claim C10 is refuted only in its final clause: when the backup-step
`send_command` raises, the exception is caught and the log artifact
survives, but the backup path is not absent — the truncating `open` on
line 128 already created an empty file there before `send_command` ran. -/
theorem C10_counterexample_backup_path_holds_empty_file :
    fsLookup (processDevice "10.0.0.1" ["show version"] "Pre" "/w" bkpFailModel
        (initSt [t0, tA])).fs (bkpPath "/w" "Pre" "R1" tA) = some "" ∧
    (some "" : Option String) ≠ none := by
  exact ⟨by decide, by decide⟩

/-- Claim C10 amended: the per-device `try` block spans the whole
session lifecycle. A netmiko failure during the backup step is caught:
the skip message is emitted, the written log artifact survives, the
only recorded write is the log write, and the backup path holds just
the empty file left by the truncating open. A failure while executing a
diagnostic command is likewise caught with no file created at all. In
every case the batch goes on to attempt all remaining devices. -/
theorem C10_amended_try_spans_whole_lifecycle
    (dev c0 : String) (commands rest0 : List String) (prepost cwd : String)
    (model : DeviceModel) (prompt : String) (out : String → String) (e : NetmikoExc)
    (st : St) (behavior : String → DeviceModel)
    (hc : model.connect = none) (hp : model.findPrompt = Except.ok prompt) :
    ((∀ c ∈ commands, model.sendCommand c = Except.ok (out c)) →
      model.sendCommand "show running" = Except.error e →
      fsLookup (processDevice dev commands prepost cwd model st).fs
          (logPath cwd prepost (pyReplaceHash prompt) (tick st.clock)) =
        some (logContent commands out) ∧
      fsLookup (processDevice dev commands prepost cwd model st).fs
          (bkpPath cwd prepost (pyReplaceHash prompt) (tick st.clock.tail)) = some "" ∧
      writesOf (processDevice dev commands prepost cwd model st) =
        writesOf st ++ [logPath cwd prepost (pyReplaceHash prompt) (tick st.clock)] ∧
      skipMsg e ∈ (processDevice dev commands prepost cwd model st).output) ∧
    (model.sendCommand c0 = Except.error e →
      (processDevice dev (c0 :: rest0) prepost cwd model st).fs = st.fs ∧
      skipMsg e ∈ (processDevice dev (c0 :: rest0) prepost cwd model st).output) ∧
    (∀ ds, connectAttempts
        (prepostchecks (dev :: ds) commands behavior prepost cwd st) =
      connectAttempts st ++ dev :: ds) := by
  refine ⟨?_, ?_, ?_⟩
  · intro hcmds hbackE
    rw [processDevice_backupFail dev commands prepost cwd model prompt out e st
      hc hp hcmds hbackE]
    refine ⟨?_, ?_, ?_, ?_⟩
    · rw [fsLookup_fsWrite_ne _ _ _ _
        (logPath_ne_bkpPath cwd prepost (pyReplaceHash prompt) (pyReplaceHash prompt)
          (tick st.clock) (tick st.clock.tail))]
      exact fsLookup_fsWrite_self _ _ _
    · exact fsLookup_fsWrite_self _ _ _
    · simp [writesOf, sessionEventsBF, List.filterMap_append, List.filterMap_cons,
        writePathOf, filterMap_write_map_exec]
    · simp [sessionOutputBF, connectBanner]
  · intro hcmd
    rw [processDevice_cmdFailFirst dev c0 rest0 prepost cwd model prompt e st hc hp hcmd]
    exact ⟨rfl, by simp [connectBanner]⟩
  · intro ds
    exact connectAttempts_prepostchecks commands behavior prepost cwd (dev :: ds) st

/-- Witness for the amended C10: a backup-step timeout keeps the log
artifact, and a command-step timeout leaves the filesystem untouched. -/
theorem C10_amended_witness :
    fsLookup (processDevice "10.0.0.1" ["show version"] "Pre" "/w" bkpFailModel
        (initSt [t0, tA])).fs
      (logPath "/w" "Pre" (pyReplaceHash "R1#") (tick (initSt [t0, tA]).clock)) =
      some (logContent ["show version"] okOut) ∧
    (processDevice "10.0.0.2" ["show clock"] "Pre" "/w" cmdFailModel
        (initSt [t0, tA])).fs = (initSt [t0, tA]).fs :=
  ⟨((C10_amended_try_spans_whole_lifecycle "10.0.0.1" "show clock" ["show version"] []
      "Pre" "/w" bkpFailModel "R1#" okOut NetmikoExc.timeoutFail (initSt [t0, tA])
      (fun _ => bkpFailModel) rfl rfl).1
      (fun c hcm => by simp at hcm; subst hcm; rfl) rfl).1,
   ((C10_amended_try_spans_whole_lifecycle "10.0.0.2" "show clock" ["show version"] []
      "Pre" "/w" cmdFailModel "R1#" okOut NetmikoExc.timeoutFail (initSt [t0, tA])
      (fun _ => cmdFailModel) rfl rfl).2.1 rfl).1⟩

end PrePostChecker
